import Mathlib

/-!
A shallow embedding of `src/modules/battery_module.py` (class
`BatterySavingsCalculator`) and proofs about it.  Python floats are
modelled as exact real numbers, timestamps and calendar dates as natural
numbers (minutes since an epoch / day indices), and the prepared pandas
frame `energy_pivot` as a list of rows.  Python dictionaries that are
only ever read through key lookup (the solar and grid plans, the
allocated-capacity map) are modelled as functions from keys to values.
-/

namespace BatteryModule

/-- One row of the prepared `energy_pivot` frame (battery_module.py lines
64-89): a timestamp, its calendar date, the summed solar production
(column `return`), the summed grid draw (column `supply`), and the merged
day-ahead price.  The pandas preparation itself (copying, datetime
parsing, pivoting with sum aggregation, merging prices) is upstream of
this model; its output guarantees one row per timestamp. -/
structure Row where
  ts : Nat
  date : Nat
  ret : ℝ
  supply : ℝ
  price : ℝ

/-- `net_energy = solar_return - house_consumption` (lines 137 and 323). -/
noncomputable def netEnergy (r : Row) : ℝ := r.ret - r.supply

/-- The configuration fields stored on the calculator by `__init__`
(lines 10-25).  The mutable `self.transactions` list is threaded
explicitly through `arbitrage` instead of living in this structure. -/
structure Calc where
  battery_capacity : ℝ
  enable_grid_arbitrage : Bool
  enable_solar_arbitrage : Bool
  charge_efficiency : ℝ
  discharge_efficiency : ℝ
  min_state_of_charge : ℝ
  price_threshold_factor : ℝ
  max_cycle_fraction : ℝ
  combined_efficiency : ℝ

/-- One element of `self.transactions` (the dictionary appended at lines
227-242). -/
structure Transaction where
  ts : Nat
  date : Nat
  price : ℝ
  solar_return : ℝ
  house_consumption : ℝ
  net_energy : ℝ
  solar_to_battery : ℝ
  solar_to_grid : ℝ
  grid_to_battery : ℝ
  battery_to_house : ℝ
  battery_to_grid : ℝ
  grid_to_house : ℝ
  battery_level : ℝ
  actions : String

/-- The key set of the transaction dictionary literal of lines 227-242,
in source order.  This is the schema of the emitted flow records. -/
def flowRecordKeys : List String :=
  ["timestamp", "date", "price", "solar_return", "house_consumption",
   "net_energy", "solar_to_battery", "solar_to_grid", "grid_to_battery",
   "battery_to_house", "battery_to_grid", "grid_to_house", "battery_level",
   "actions"]

/-- `BatterySavingsCalculator.__init__` (lines 10-28): every argument is
stored unvalidated, `combined_efficiency` is derived, and the transaction
history starts empty.  The constructor is total: it never raises. -/
def initCalc (battery_capacity : ℝ) (enable_grid_arbitrage enable_solar_arbitrage : Bool)
    (charge_efficiency discharge_efficiency min_state_of_charge
      price_threshold_factor max_cycle_fraction : ℝ) : Calc × List Transaction :=
  ({ battery_capacity := battery_capacity,
     enable_grid_arbitrage := enable_grid_arbitrage,
     enable_solar_arbitrage := enable_solar_arbitrage,
     charge_efficiency := charge_efficiency,
     discharge_efficiency := discharge_efficiency,
     min_state_of_charge := min_state_of_charge,
     price_threshold_factor := price_threshold_factor,
     max_cycle_fraction := max_cycle_fraction,
     combined_efficiency := charge_efficiency * discharge_efficiency }, [])

/-- Whether a planned action is a charge or a discharge. -/
inductive ActType where
  | charge
  | discharge
  deriving DecidableEq

/-- A value of the plan dictionaries built by the two planners:
`{'type': ..., 'amount': ..., 'price': ...}`, with the optional
`'buy_price'` key of grid discharge entries. -/
structure PlanEntry where
  type : ActType
  amount : ℝ
  price : ℝ
  buy_price : Option ℝ

/-- A plan dictionary, read only through key lookup. -/
def Plan : Type := Nat → Option PlanEntry

/-- The empty dictionary `{}`. -/
def planEmpty : Plan := fun _ => none

/-- Dictionary assignment `plan[k] = v`. -/
def planSet (p : Plan) (k : Nat) (v : PlanEntry) : Plan :=
  fun k2 => if k2 = k then some v else p k2

/-- Day mean of the `price` column (line 293). -/
noncomputable def avgPrice (day : List Row) : ℝ :=
  ((day.map Row.price).sum) / (day.length : ℝ)

/-- Sample variance of the day's prices with ddof = 1, the square of
pandas `.std()`.  For day lengths below 2 the division is by zero, which
is 0 in ℝ where pandas produces NaN; with NaN every `<` comparison below
is false, and with 0 the thresholds degenerate to the mean, so no row of
such a day is planned for charge either way. -/
noncomputable def priceVar (day : List Row) : ℝ :=
  ((day.map (fun r => (r.price - avgPrice day) ^ 2)).sum) / ((day.length : ℝ) - 1)

/-- `day_data['price'].std()` (line 295). -/
noncomputable def priceStd (day : List Row) : ℝ := Real.sqrt (priceVar day)

/-- `required_price_increase = 1 / self.combined_efficiency` (line 302). -/
noncomputable def requiredPriceIncrease (c : Calc) : ℝ := 1 / c.combined_efficiency

/-- `charge_threshold` (lines 305-308). -/
noncomputable def chargeThreshold (day : List Row) : ℝ :=
  min (avgPrice day) (avgPrice day - 0.5 * priceStd day)

/-- `discharge_threshold` (lines 311-315). -/
noncomputable def dischargeThreshold (c : Calc) (day : List Row) : ℝ :=
  max (avgPrice day * requiredPriceIncrease c)
    (max (avgPrice day + 0.5 * priceStd day)
      (chargeThreshold day * requiredPriceIncrease c * c.price_threshold_factor))

/-- The body of the planning loop of `_plan_solar_arbitrage` (lines
318-338) for one row: conditionally insert a charge or discharge entry
into the plan dictionary. -/
noncomputable def planSolarStep (thrC thrD maxPower : ℝ) (acc : Plan) (r : Row) : Plan :=
  if 0 < netEnergy r ∧ r.price < thrC then
    planSet acc r.ts
      { type := ActType.charge, amount := min (netEnergy r) maxPower,
        price := r.price, buy_price := none }
  else if netEnergy r < 0 ∧ thrD < r.price then
    planSet acc r.ts
      { type := ActType.discharge, amount := min |netEnergy r| maxPower,
        price := r.price, buy_price := none }
  else acc

/-- `_plan_solar_arbitrage` (lines 282-340). -/
noncomputable def planSolar (c : Calc) (day : List Row) (maxPower : ℝ) : Plan :=
  day.foldl (planSolarStep (chargeThreshold day) (dischargeThreshold c day) maxPower) planEmpty

/-- One buy/sell pair of `_plan_grid_arbitrage` (line 387):
`(buy_ts, buy_price, sell_ts, sell_price, profit_per_unit)`. -/
structure GridPair where
  buy_ts : Nat
  buy_price : ℝ
  sell_ts : Nat
  sell_price : ℝ
  profit : ℝ

/-- Lines 351-390 of `_plan_grid_arbitrage`: sort the day's
(timestamp, price) pairs by price (Python `sorted` is stable), take the
lowest third as buy candidates and the highest third as sell candidates,
re-sort each by timestamp, and form every temporally valid pair whose
sell price exceeds `buy_price * (1/combined_efficiency) *
price_threshold_factor`, with `profit = sell_price - buy_price /
combined_efficiency`. -/
noncomputable def gridPairs (c : Calc) (day : List Row) : List GridPair :=
  let priceData := day.map (fun r => (r.ts, r.price))
  let sortedByPrice := priceData.mergeSort (fun a b => decide (a.2 ≤ b.2))
  let n := sortedByPrice.length
  let buys := sortedByPrice.take (n / 3)
  let sells := sortedByPrice.drop (2 * n / 3)
  let buysByTs := buys.mergeSort (fun a b => decide (a.1 ≤ b.1))
  let sellsByTs := sells.mergeSort (fun a b => decide (a.1 ≤ b.1))
  let minPriceRatio := 1 / c.combined_efficiency
  buysByTs.flatMap (fun b =>
    (sellsByTs.filter (fun s => decide (b.1 < s.1))).filterMap (fun s =>
      if b.2 * minPriceRatio * c.price_threshold_factor < s.2 then
        some { buy_ts := b.1, buy_price := b.2, sell_ts := s.1, sell_price := s.2,
               profit := s.2 - b.2 / c.combined_efficiency }
      else none))

/-- Lines 396-432: greedy allocation of one arbitrage pair against the
remaining per-timestamp capacity, updating the allocated-capacity map and
the grid plan dictionary (amount accumulation and weighted buy price on
repeated sell timestamps, exactly as the source). -/
noncomputable def gridAllocStep (maxPower : ℝ) (st : (Nat → ℝ) × Plan) (pr : GridPair) :
    (Nat → ℝ) × Plan :=
  let alloc := st.1
  let gp := st.2
  let buyRemaining := maxPower - alloc pr.buy_ts
  let sellRemaining := maxPower - alloc pr.sell_ts
  if 0 < buyRemaining ∧ 0 < sellRemaining then
    let amount := min buyRemaining sellRemaining
    let gp1 := match gp pr.buy_ts with
      | none => planSet gp pr.buy_ts
          { type := ActType.charge, amount := amount, price := pr.buy_price, buy_price := none }
      | some e => planSet gp pr.buy_ts
          { type := e.type, amount := e.amount + amount, price := e.price,
            buy_price := e.buy_price }
    let gp2 := match gp1 pr.sell_ts with
      | none => planSet gp1 pr.sell_ts
          { type := ActType.discharge, amount := amount, price := pr.sell_price,
            buy_price := some pr.buy_price }
      | some e =>
          let newAmount := e.amount + amount
          let newBuy := match e.buy_price with
            | some pbp => some ((pbp * (newAmount - amount) + pr.buy_price * amount) / newAmount)
            | none => none
          planSet gp1 pr.sell_ts
            { type := e.type, amount := newAmount, price := e.price, buy_price := newBuy }
    let alloc1 := fun t => if t = pr.buy_ts then alloc t + amount else alloc t
    let alloc2 := fun t => if t = pr.sell_ts then alloc1 t + amount else alloc1 t
    (alloc2, gp2)
  else (alloc, gp)

/-- `_plan_grid_arbitrage` (lines 342-434): rank the pairs by per-unit
profit descending (stable, as Python `list.sort(..., reverse=True)`) and
allocate greedily, starting from the all-zero allocation map (the source
initialises every timestamp of the day to 0 and reads with default 0). -/
noncomputable def planGrid (c : Calc) (day : List Row) (maxPower : ℝ) : Plan :=
  let pairsSorted := (gridPairs c day).mergeSort (fun a b => decide (b.profit ≤ a.profit))
  (pairsSorted.foldl (gridAllocStep maxPower) ((fun _ => 0), planEmpty)).2

/-- `'+'.join(actions) if actions else 'none'` (line 241). -/
def joinActions (l : List String) : String :=
  if l.isEmpty then ("none") else String.intercalate ("+") l

/-- The outcome of the solar-arbitrage part of one executed timestamp
(lines 150-189). -/
structure SolarOut where
  s2b : ℝ
  s2g : ℝ
  b2h : ℝ
  g2h : ℝ
  level : ℝ
  lost : ℝ
  gross : ℝ
  acts : List String

/-- Lines 150-189: execute the solar plan at one row, or the no-plan
default behaviour (excess exports, deficits draw from the grid). -/
noncomputable def execSolar (c : Calc) (minLevel : ℝ) (sp : Plan) (level : ℝ) (r : Row) :
    SolarOut :=
  let net := netEnergy r
  match (if c.enable_solar_arbitrage then sp r.ts else none) with
  | some action =>
    if action.type = ActType.charge ∧ 0 < net then
      let availableSolar := net
      let spaceInBattery := (c.battery_capacity - level) / c.charge_efficiency
      let chargeAmount := min availableSolar (min action.amount spaceInBattery)
      if 0 < chargeAmount then
        { s2b := chargeAmount, s2g := availableSolar - chargeAmount, b2h := 0, g2h := 0,
          level := level + chargeAmount * c.charge_efficiency,
          lost := chargeAmount * r.price, gross := 0, acts := ["solar_to_battery"] }
      else
        { s2b := 0, s2g := availableSolar, b2h := 0, g2h := 0, level := level,
          lost := 0, gross := 0, acts := [] }
    else if action.type = ActType.discharge ∧ net < 0 then
      let energyNeeded := |net|
      let availableBattery := (level - minLevel) * c.discharge_efficiency
      let dischargeAmount := min energyNeeded (min action.amount availableBattery)
      if 0 < dischargeAmount then
        { s2b := 0, s2g := 0, b2h := dischargeAmount, g2h := energyNeeded - dischargeAmount,
          level := level - dischargeAmount / c.discharge_efficiency,
          lost := 0, gross := dischargeAmount * r.price, acts := ["battery_to_house"] }
      else
        { s2b := 0, s2g := 0, b2h := 0, g2h := energyNeeded, level := level,
          lost := 0, gross := 0, acts := [] }
    else
      { s2b := 0, s2g := 0, b2h := 0, g2h := 0, level := level,
        lost := 0, gross := 0, acts := [] }
  | none =>
    if 0 < net then
      { s2b := 0, s2g := net, b2h := 0, g2h := 0, level := level,
        lost := 0, gross := 0, acts := [] }
    else
      { s2b := 0, s2g := 0, b2h := 0, g2h := |net|, level := level,
        lost := 0, gross := 0, acts := [] }

/-- The outcome of the grid-arbitrage part of one executed timestamp
(lines 191-224). -/
structure GridOut where
  g2b : ℝ
  b2g : ℝ
  level : ℝ
  gridsav : ℝ
  acts : List String

/-- Lines 191-224: execute the grid plan at one row. -/
noncomputable def execGrid (c : Calc) (maxPower minLevel : ℝ) (gp : Plan) (level : ℝ)
    (r : Row) : GridOut :=
  match (if c.enable_grid_arbitrage then gp r.ts else none) with
  | some action =>
    if action.type = ActType.charge then
      let spaceInBattery := (c.battery_capacity - level) / c.charge_efficiency
      let chargeAmount := min action.amount (min spaceInBattery maxPower)
      if 0 < chargeAmount then
        { g2b := chargeAmount, b2g := 0,
          level := level + chargeAmount * c.charge_efficiency,
          gridsav := 0, acts := ["grid_to_battery"] }
      else { g2b := 0, b2g := 0, level := level, gridsav := 0, acts := [] }
    else
      let availableBattery := (level - minLevel) * c.discharge_efficiency
      let dischargeAmount := min action.amount (min availableBattery maxPower)
      if 0 < dischargeAmount then
        let profit := match action.buy_price with
          | some bp => dischargeAmount * r.price - (dischargeAmount / c.combined_efficiency) * bp
          | none => 0
        { g2b := 0, b2g := dischargeAmount,
          level := level - dischargeAmount / c.discharge_efficiency,
          gridsav := profit, acts := ["battery_to_grid"] }
      else { g2b := 0, b2g := 0, level := level, gridsav := 0, acts := [] }
  | none => { g2b := 0, b2g := 0, level := level, gridsav := 0, acts := [] }

/-- The state and per-day metric deltas produced by executing one row. -/
structure StepOut where
  record : Transaction
  level : ℝ
  gross : ℝ
  lost : ℝ
  gridsav : ℝ

/-- One iteration of the execution loop (lines 132-242): solar branch,
then grid branch against the updated level, then the appended
transaction record with the post-transfer battery level. -/
noncomputable def execRow (c : Calc) (maxPower minLevel : ℝ) (sp gp : Plan) (level : ℝ)
    (r : Row) : StepOut :=
  let so := execSolar c minLevel sp level r
  let go := execGrid c maxPower minLevel gp so.level r
  { record :=
      { ts := r.ts, date := r.date, price := r.price, solar_return := r.ret,
        house_consumption := r.supply, net_energy := netEnergy r,
        solar_to_battery := so.s2b, solar_to_grid := so.s2g,
        grid_to_battery := go.g2b, battery_to_house := so.b2h,
        battery_to_grid := go.b2g, grid_to_house := so.g2h,
        battery_level := go.level, actions := joinActions (so.acts ++ go.acts) },
    level := go.level, gross := so.gross, lost := so.lost, gridsav := go.gridsav }

/-- The battery level, transaction records and daily metric totals after
executing one day's rows. -/
structure DayOut where
  level : ℝ
  recs : List Transaction
  gross : ℝ
  lost : ℝ
  gridsav : ℝ

/-- The execution loop over one day's rows, threading the battery level
and accumulating the day's metrics (lines 111-242). -/
noncomputable def execDay (c : Calc) (maxPower minLevel : ℝ) (sp gp : Plan) (level : ℝ) :
    List Row → DayOut
  | [] => { level := level, recs := [], gross := 0, lost := 0, gridsav := 0 }
  | r :: rs =>
    let s := execRow c maxPower minLevel sp gp level r
    let rest := execDay c maxPower minLevel sp gp s.level rs
    { level := rest.level, recs := s.record :: rest.recs,
      gross := s.gross + rest.gross, lost := s.lost + rest.lost,
      gridsav := s.gridsav + rest.gridsav }

/-- The per-day metrics entry of `daily_metrics` (lines 104-117, 244-254). -/
structure DayMetrics where
  date : Nat
  gross : ℝ
  lost : ℝ
  gridsav : ℝ

/-- The run over all dates in order: build the day's plans (empty unless
the corresponding arbitrage mode is enabled, lines 119-129), execute the
day, and carry the battery level into the next day. -/
noncomputable def execDates (c : Calc) (maxPower minLevel : ℝ) (rows : List Row) (level : ℝ) :
    List Nat → ℝ × List Transaction × List DayMetrics
  | [] => (level, [], [])
  | d :: ds =>
    let day := rows.filter (fun r => r.date == d)
    let sp := if c.enable_solar_arbitrage then planSolar c day maxPower else planEmpty
    let gp := if c.enable_grid_arbitrage then planGrid c day maxPower else planEmpty
    let dout := execDay c maxPower minLevel sp gp level day
    let rest := execDates c maxPower minLevel rows dout.level ds
    (rest.1, dout.recs ++ rest.2.1,
      { date := d, gross := dout.gross, lost := dout.lost, gridsav := dout.gridsav } :: rest.2.2)

/-- One row of the returned savings table (lines 43-49, 248-254). -/
structure DailyRow where
  date : Nat
  gross_savings : ℝ
  lost_revenue : ℝ
  net_savings : ℝ
  grid_arbitrage_savings : ℝ

/-- Lines 245-254: keep only days with some positive metric and derive
`net_savings = gross_savings - lost_revenue`. -/
noncomputable def dailyResults (dailies : List DayMetrics) : List DailyRow :=
  dailies.filterMap (fun m =>
    if 0 < m.gross ∨ 0 < m.lost ∨ 0 < m.gridsav then
      some { date := m.date, gross_savings := m.gross, lost_revenue := m.lost,
             net_savings := m.gross - m.lost, grid_arbitrage_savings := m.gridsav }
    else none)

/-- The smallest most-frequent element of a list (pandas `mode()[0]`),
60 on an empty list's behalf handled by the caller. -/
def listMode (l : List Nat) : Nat :=
  ((l.eraseDups).mergeSort (fun a b => decide (a ≤ b))).foldl
    (fun best x => if l.count best < l.count x then x else best) 0

/-- `_determine_interval_minutes` (lines 264-280): the most common
consecutive difference of the sorted timestamps, in minutes (timestamps
are modelled in minutes, so differences are already minutes); fewer than
two rows, or no differences, defaults to 60. -/
def determineIntervalMinutes (tss : List Nat) : Nat :=
  if tss.length < 2 then 60
  else
    let sorted := tss.mergeSort (fun a b => decide (a ≤ b))
    let diffs := List.zipWith (fun a b => b - a) sorted sorted.tail
    if diffs.isEmpty then 60 else listMode diffs

/-- Lines 92-97: `interval_fraction = interval_minutes / 60.0` and
`max_power_per_interval = battery_capacity * max_cycle_fraction *
interval_fraction`. -/
noncomputable def maxPowerPerInterval (capacity maxCycleFraction : ℝ)
    (intervalMinutes : Nat) : ℝ :=
  capacity * maxCycleFraction * ((intervalMinutes : ℝ) / 60)

/-- Modelled from the spec: the per-interval ceiling described in the
specification, `min(capacity * max_cycle_fraction *
interval_fraction_of_hour, max_power_kw * interval_fraction_of_hour)`.
The source has no `max_power_kw` parameter; this definition exists only
to compare the spec's formula with the source's. -/
noncomputable def specMaxPowerPerInterval (capacity maxCycleFraction maxPowerKw : ℝ)
    (intervalMinutes : Nat) : ℝ :=
  min (capacity * maxCycleFraction * ((intervalMinutes : ℝ) / 60))
    (maxPowerKw * ((intervalMinutes : ℝ) / 60))

/-- Line 89: `energy_pivot.sort_values('timestamp')`. -/
noncomputable def sortRows (rows : List Row) : List Row :=
  rows.mergeSort (fun a b => decide (a.ts ≤ b.ts))

/-- The ascending list of distinct dates, as pandas `groupby('date')`
orders its groups (line 108). -/
def sortDates (dates : List Nat) : List Nat :=
  (dates.eraseDups).mergeSort (fun a b => decide (a ≤ b))

/-- `BatterySavingsCalculator.arbitrage` (lines 30-262), starting from
the prepared pivot rows.  `transactions` is `self.transactions` at call
time; the result pairs the savings table with the updated
`self.transactions` (records are only ever appended, line 227).  With
both arbitrage modes disabled the function returns the empty table
immediately (lines 51-52).  Otherwise rows are sorted by timestamp
(line 89), the interval and the power ceiling are derived (lines 92-97),
the level starts at the minimum (lines 100-102), and dates are processed
in ascending order (pandas `groupby` sorts its keys). -/
noncomputable def arbitrage (c : Calc) (transactions : List Transaction) (rows : List Row) :
    List DailyRow × List Transaction :=
  if c.enable_solar_arbitrage ∨ c.enable_grid_arbitrage then
    let sorted := sortRows rows
    let intervalMinutes := determineIntervalMinutes (sorted.map Row.ts)
    let maxPower := maxPowerPerInterval c.battery_capacity c.max_cycle_fraction intervalMinutes
    let minLevel := c.battery_capacity * c.min_state_of_charge
    let dates := sortDates (sorted.map Row.date)
    let run := execDates c maxPower minLevel sorted minLevel dates
    (dailyResults run.2.2, transactions ++ run.2.1)
  else ([], transactions)

/-- Total attributable savings of a savings table:
`net_savings + grid_arbitrage_savings` summed over the rows. -/
noncomputable def totalSavings (t : List DailyRow) : ℝ :=
  ((t.map DailyRow.net_savings).sum) + ((t.map DailyRow.grid_arbitrage_savings).sum)

/-- A heap of Python objects: object id maps to the object's current
value.  Used to make the reference semantics of the two DataFrame
arguments of `arbitrage` explicit. -/
def Heap (α : Type) : Type := Nat → Option α

/-- Store a value at an object id. -/
def heapSet {α : Type} (h : Heap α) (i : Nat) (v : α) : Heap α :=
  fun j => if j = i then some v else h j

/-- Lines 54-62 of `arbitrage`, with object identity explicit.  `next`
is the next unallocated object id, `uid` and `pid` are the caller's
references to `energy_usage` and `energy_prices`, and `tU`, `tP` are the
in-place transformations the source applies through the local names (the
`pd.to_datetime` conversion of the timestamp column and the `date`
column insertion).  The source first rebinds both locals to `.copy()`s
(fresh ids `next` and `next + 1`), so the in-place updates hit the
copies; every later step of the source (pivot, merge, sort) builds fresh
frames. -/
def arbitragePrep {α : Type} (h : Heap α) (next uid pid : Nat) (tU tP : α → α) :
    Heap α × Nat × Nat :=
  match h uid, h pid with
  | some u, some p =>
    let h1 := heapSet h next u
    let h2 := heapSet h1 (next + 1) p
    let h3 := heapSet h2 next (tU u)
    let h4 := heapSet h3 (next + 1) (tP p)
    (h4, next, next + 1)
  | _, _ => (h, uid, pid)

/-- Example calculator: `BatterySavingsCalculator(battery_capacity=100,
enable_solar_arbitrage=True, charge_efficiency=1, discharge_efficiency=1,
min_state_of_charge=0.1, price_threshold_factor=1.05,
max_cycle_fraction=0.4)`; used for concrete planner evaluations. -/
noncomputable def exCalc : Calc := (initCalc 100 false true 1 1 0.1 1.05 0.4).1

/-- Example surplus day: three rows with prices 0, 1 and 2, each with
return 10 and supply 0 (mean price 1, sample standard deviation 1). -/
noncomputable def dayA : List Row :=
  [{ ts := 0, date := 0, ret := 10, supply := 0, price := 0 },
   { ts := 1, date := 0, ret := 10, supply := 0, price := 1 },
   { ts := 2, date := 0, ret := 10, supply := 0, price := 2 }]

/-- Example mixed day: two surplus rows (prices 0 and 1) and one deficit
row (price 2). -/
noncomputable def dayB : List Row :=
  [{ ts := 0, date := 0, ret := 10, supply := 0, price := 0 },
   { ts := 1, date := 0, ret := 10, supply := 0, price := 1 },
   { ts := 2, date := 0, ret := 0, supply := 10, price := 2 }]

/-- Example single-row run: the calculator of the scenario in the spec
(capacity 100, efficiencies 0.95, minimum state of charge 0.1), solar
arbitrage only. -/
noncomputable def wCalc : Calc := (initCalc 100 false true 0.95 0.95 0.1 1.05 0.4).1

/-- The single input row of the example run. -/
noncomputable def wRow : Row := { ts := 0, date := 0, ret := 5, supply := 0, price := 3 }

/-- The single transaction record `arbitrage wCalc [] [wRow]` emits. -/
noncomputable def wRec : Transaction :=
  { ts := 0, date := 0, price := 3, solar_return := 5, house_consumption := 0,
    net_energy := 5, solar_to_battery := 0, solar_to_grid := 5, grid_to_battery := 0,
    battery_to_house := 0, battery_to_grid := 0, grid_to_house := 0,
    battery_level := 10, actions := "none" }

/-! ## Helper lemmas about the solar plan dictionary -/

theorem planSet_ne (p : Plan) (k : Nat) (v : PlanEntry) (k2 : Nat) (h : k2 ≠ k) :
    planSet p k v k2 = p k2 := by
  simp [planSet, h]

theorem planSolarStep_ne (thrC thrD maxPower : ℝ) (acc : Plan) (r : Row) (k : Nat)
    (h : k ≠ r.ts) :
    planSolarStep thrC thrD maxPower acc r k = acc k := by
  by_cases h1 : 0 < netEnergy r ∧ r.price < thrC
  · simp [planSolarStep, h1, planSet, h]
  · by_cases h2 : netEnergy r < 0 ∧ thrD < r.price
    · simp [planSolarStep, h1, h2, planSet, h]
    · simp [planSolarStep, h1, h2]

theorem foldl_planSolarStep_not_mem (thrC thrD maxPower : ℝ) (rs : List Row) (acc : Plan)
    (k : Nat) (h : k ∉ rs.map Row.ts) :
    rs.foldl (planSolarStep thrC thrD maxPower) acc k = acc k := by
  induction rs generalizing acc with
  | nil => rfl
  | cons a rs ih =>
    simp only [List.map_cons, List.mem_cons] at h
    push_neg at h
    rw [List.foldl_cons, ih _ h.2, planSolarStep_ne _ _ _ _ _ _ h.1]

theorem foldl_planSolarStep_mem (thrC thrD maxPower : ℝ) (rs : List Row) (acc : Plan)
    (r : Row) (hn : (rs.map Row.ts).Nodup) (hm : r ∈ rs) :
    rs.foldl (planSolarStep thrC thrD maxPower) acc r.ts =
      if 0 < netEnergy r ∧ r.price < thrC then
        some { type := ActType.charge, amount := min (netEnergy r) maxPower,
               price := r.price, buy_price := none }
      else if netEnergy r < 0 ∧ thrD < r.price then
        some { type := ActType.discharge, amount := min |netEnergy r| maxPower,
               price := r.price, buy_price := none }
      else acc r.ts := by
  induction rs generalizing acc with
  | nil => cases hm
  | cons a rs ih =>
    simp only [List.map_cons, List.nodup_cons] at hn
    rw [List.foldl_cons]
    rcases List.mem_cons.mp hm with h | h
    · subst h
      rw [foldl_planSolarStep_not_mem _ _ _ _ _ _ hn.1]
      by_cases h1 : 0 < netEnergy r ∧ r.price < thrC
      · simp [planSolarStep, h1, planSet]
      · by_cases h2 : netEnergy r < 0 ∧ thrD < r.price
        · simp [planSolarStep, h1, h2, planSet]
        · simp [planSolarStep, h1, h2]
    · have hne : r.ts ≠ a.ts := by
        intro hts
        exact hn.1 (hts ▸ List.mem_map_of_mem Row.ts h)
      rw [ih _ hn.2 h, planSolarStep_ne _ _ _ _ _ _ hne]

/-- Characterisation of the solar plan at a row's timestamp, given that
the day's timestamps are unique (which the pandas pivot of lines 64-72
guarantees on real inputs). -/
theorem planSolar_lookup (c : Calc) (day : List Row) (maxPower : ℝ) (r : Row)
    (hn : (day.map Row.ts).Nodup) (hm : r ∈ day) :
    planSolar c day maxPower r.ts =
      if 0 < netEnergy r ∧ r.price < chargeThreshold day then
        some { type := ActType.charge, amount := min (netEnergy r) maxPower,
               price := r.price, buy_price := none }
      else if netEnergy r < 0 ∧ dischargeThreshold c day < r.price then
        some { type := ActType.discharge, amount := min |netEnergy r| maxPower,
               price := r.price, buy_price := none }
      else none := by
  rw [planSolar, foldl_planSolarStep_mem _ _ _ _ _ _ hn hm]
  rfl

/-! ## Concrete evaluations of the day statistics -/

theorem avgPrice_dayA : avgPrice dayA = 1 := by
  norm_num [avgPrice, dayA]

theorem priceStd_dayA : priceStd dayA = 1 := by
  have hvar : priceVar dayA = 1 := by
    simp only [priceVar, avgPrice_dayA]
    norm_num [dayA]
  rw [priceStd, hvar, Real.sqrt_one]

theorem chargeThreshold_dayA : chargeThreshold dayA = 1 / 2 := by
  rw [chargeThreshold, avgPrice_dayA, priceStd_dayA]
  norm_num

/-- C1 counterexample: in the surplus day with prices 0, 1, 2 every row
has positive net production, yet the planner gives the middle row (price
1, at the day mean and above the charge threshold 0.5) no action at all,
so a net-positive timestamp is not planned as charge independently of
its price. -/
theorem c1_counterexample :
    0 < netEnergy { ts := 1, date := 0, ret := 10, supply := 0, price := 1 } ∧
      planSolar exCalc dayA 10 1 = none := by
  constructor
  · norm_num [netEnergy]
  · rw [planSolar, chargeThreshold_dayA]
    norm_num [dayA, planSolarStep, netEnergy, planSet, planEmpty]

/-- C1 (amended): with solar arbitrage enabled, a timestamp with
positive net production is planned as "charge" exactly when its price is
also strictly below the day's charge threshold
`min(mean, mean - 0.5 * std)`; positive net production alone does not
make the planner charge. -/
theorem c1_charge_requires_low_price (c : Calc) (day : List Row) (maxPower : ℝ) (r : Row)
    (hn : (day.map Row.ts).Nodup) (hm : r ∈ day) :
    (∃ e : PlanEntry, planSolar c day maxPower r.ts = some e ∧ e.type = ActType.charge) ↔
      0 < netEnergy r ∧
        r.price < min (avgPrice day) (avgPrice day - 0.5 * priceStd day) := by
  have hl := planSolar_lookup c day maxPower r hn hm
  have hct : min (avgPrice day) (avgPrice day - 0.5 * priceStd day) = chargeThreshold day := rfl
  rw [hct]
  constructor
  · rintro ⟨e, he, ht⟩
    rw [hl] at he
    by_cases h1 : 0 < netEnergy r ∧ r.price < chargeThreshold day
    · exact h1
    · rw [if_neg h1] at he
      by_cases h2 : netEnergy r < 0 ∧ dischargeThreshold c day < r.price
      · rw [if_pos h2] at he
        injection he with he2
        rw [← he2] at ht
        simp at ht
      · rw [if_neg h2] at he
        cases he
  · intro h1
    exact ⟨_, by rw [hl, if_pos h1], rfl⟩

/-- Witness for C1's amended theorem: in the example day the first row
(price 0, below the charge threshold 0.5) is planned as charge. -/
theorem c1_charge_requires_low_price_witness :
    ((dayA.map Row.ts).Nodup ∧
        { ts := 0, date := 0, ret := 10, supply := 0, price := (0:ℝ) } ∈ dayA) ∧
      (∃ e : PlanEntry, planSolar exCalc dayA 10 0 = some e ∧ e.type = ActType.charge) := by
  have hn : (dayA.map Row.ts).Nodup := by norm_num [dayA]
  have hm : { ts := 0, date := 0, ret := 10, supply := 0, price := (0:ℝ) } ∈ dayA :=
    List.mem_cons_self _ _
  refine ⟨⟨hn, hm⟩, ?_⟩
  refine (c1_charge_requires_low_price exCalc dayA 10 _ hn hm).mpr ?_
  rw [avgPrice_dayA, priceStd_dayA]
  norm_num [netEnergy]

/-! ## Day-B statistics (used by the C4 witness) -/

theorem avgPrice_dayB : avgPrice dayB = 1 := by
  norm_num [avgPrice, dayB]

theorem priceStd_dayB : priceStd dayB = 1 := by
  have hvar : priceVar dayB = 1 := by
    simp only [priceVar, avgPrice_dayB]
    norm_num [dayB]
  rw [priceStd, hvar, Real.sqrt_one]

theorem chargeThreshold_dayB : chargeThreshold dayB = 1 / 2 := by
  rw [chargeThreshold, avgPrice_dayB, priceStd_dayB]
  norm_num

theorem dischargeThreshold_dayB : dischargeThreshold exCalc dayB = 3 / 2 := by
  have hc : exCalc.combined_efficiency = 1 := by norm_num [exCalc, initCalc]
  have hf : exCalc.price_threshold_factor = 1.05 := by norm_num [exCalc, initCalc]
  simp only [dischargeThreshold, requiredPriceIncrease]
  rw [hc, hf, avgPrice_dayB, priceStd_dayB, chargeThreshold_dayB]
  norm_num [max_def]

/-- C4: a timestamp the solar planner marks for discharge has a
production deficit and a price strictly above the discharge threshold,
which is the maximum of: mean price times `1/combined_efficiency`, mean
price plus half the price standard deviation, and the charge threshold
times `1/combined_efficiency` times `price_threshold_factor`
(lines 311-315 and 332). -/
theorem c4_discharge_only_above_threshold (c : Calc) (day : List Row) (maxPower : ℝ)
    (r : Row) (e : PlanEntry) (hn : (day.map Row.ts).Nodup) (hm : r ∈ day)
    (he : planSolar c day maxPower r.ts = some e) (ht : e.type = ActType.discharge) :
    netEnergy r < 0 ∧
      max (avgPrice day * (1 / c.combined_efficiency))
        (max (avgPrice day + 0.5 * priceStd day)
          (min (avgPrice day) (avgPrice day - 0.5 * priceStd day) *
            (1 / c.combined_efficiency) * c.price_threshold_factor)) < r.price := by
  have hl := planSolar_lookup c day maxPower r hn hm
  rw [hl] at he
  by_cases h1 : 0 < netEnergy r ∧ r.price < chargeThreshold day
  · rw [if_pos h1] at he
    injection he with he2
    rw [← he2] at ht
    simp at ht
  · rw [if_neg h1] at he
    by_cases h2 : netEnergy r < 0 ∧ dischargeThreshold c day < r.price
    · exact h2
    · rw [if_neg h2] at he
      cases he

/-- Witness for C4 at the example mixed day: the deficit row of price 2
is planned for discharge, and 2 exceeds the threshold 1.5. -/
theorem c4_discharge_only_above_threshold_witness :
    ((dayB.map Row.ts).Nodup ∧
        planSolar exCalc dayB 10 2 =
          some { type := ActType.discharge, amount := 10, price := 2, buy_price := none }) ∧
      (netEnergy { ts := 2, date := 0, ret := 0, supply := 10, price := (2:ℝ) } < 0 ∧
        max (avgPrice dayB * (1 / exCalc.combined_efficiency))
          (max (avgPrice dayB + 0.5 * priceStd dayB)
            (min (avgPrice dayB) (avgPrice dayB - 0.5 * priceStd dayB) *
              (1 / exCalc.combined_efficiency) * exCalc.price_threshold_factor)) <
          Row.price { ts := 2, date := 0, ret := 0, supply := 10, price := (2:ℝ) }) := by
  have hn : (dayB.map Row.ts).Nodup := by norm_num [dayB]
  have hm : { ts := 2, date := 0, ret := 0, supply := 10, price := (2:ℝ) } ∈ dayB :=
    List.mem_cons_of_mem _ (List.mem_cons_of_mem _ (List.mem_cons_self _ _))
  have he : planSolar exCalc dayB 10 2 =
      some { type := ActType.discharge, amount := 10, price := 2, buy_price := none } := by
    rw [planSolar, chargeThreshold_dayB, dischargeThreshold_dayB]
    norm_num [dayB, planSolarStep, netEnergy, planSet, planEmpty]
  exact ⟨⟨hn, he⟩, c4_discharge_only_above_threshold exCalc dayB 10 _ _ hn hm he rfl⟩

/-! ## Plan amounts never exceed the power ceiling -/

theorem planSet_amount_le (p : Plan) (k0 : Nat) (v : PlanEntry) (maxPower : ℝ)
    (hv : v.amount ≤ maxPower) (hp : ∀ k e, p k = some e → e.amount ≤ maxPower) :
    ∀ k e, planSet p k0 v k = some e → e.amount ≤ maxPower := by
  intro k e hk
  by_cases h : k = k0
  · subst h
    simp [planSet] at hk
    exact hk ▸ hv
  · rw [planSet_ne _ _ _ _ h] at hk
    exact hp _ _ hk

theorem planSolarStep_amount_le (thrC thrD maxPower : ℝ) (acc : Plan) (a : Row)
    (hacc : ∀ k e, acc k = some e → e.amount ≤ maxPower) :
    ∀ k e, planSolarStep thrC thrD maxPower acc a k = some e → e.amount ≤ maxPower := by
  unfold planSolarStep
  by_cases h1 : 0 < netEnergy a ∧ a.price < thrC
  · rw [if_pos h1]
    exact planSet_amount_le _ _ _ _ (min_le_right _ _) hacc
  · rw [if_neg h1]
    by_cases h2 : netEnergy a < 0 ∧ thrD < a.price
    · rw [if_pos h2]
      exact planSet_amount_le _ _ _ _ (min_le_right _ _) hacc
    · rw [if_neg h2]
      exact hacc

theorem foldl_planSolarStep_amount_le (thrC thrD maxPower : ℝ) (rs : List Row) (acc : Plan)
    (hacc : ∀ k e, acc k = some e → e.amount ≤ maxPower) :
    ∀ k e, rs.foldl (planSolarStep thrC thrD maxPower) acc k = some e →
      e.amount ≤ maxPower := by
  induction rs generalizing acc with
  | nil => exact hacc
  | cons a rs ih =>
    rw [List.foldl_cons]
    exact ih _ (planSolarStep_amount_le _ _ _ _ _ hacc)

theorem planSolar_amount_le (c : Calc) (day : List Row) (maxPower : ℝ) (k : Nat)
    (e : PlanEntry) (he : planSolar c day maxPower k = some e) : e.amount ≤ maxPower := by
  refine foldl_planSolarStep_amount_le _ _ _ day planEmpty ?_ k e he
  intro k e h
  simp [planEmpty] at h

/-- C5 (amended): the per-interval power ceiling applied to planned
actions is the capacity-relative limit alone,
`battery_capacity * max_cycle_fraction * (interval_minutes / 60)`
(lines 92-97); every planned solar amount is bounded by it.  The source
has no absolute `max_power_kw` bound. -/
theorem c5_power_ceiling_capacity_only (c : Calc) (day : List Row) (im : Nat) (k : Nat)
    (e : PlanEntry)
    (he : planSolar c day
        (maxPowerPerInterval c.battery_capacity c.max_cycle_fraction im) k = some e) :
    e.amount ≤ c.battery_capacity * c.max_cycle_fraction * ((im : ℝ) / 60) :=
  planSolar_amount_le c day _ k e he

/-- C5 counterexample: at capacity 100, cycle fraction 0.4 and a
15-minute interval the source ceiling is 10, while the spec's formula
with any finite absolute limit (here `max_power_kw = 1`) gives 0.25, so
the source ceiling is not the minimum of the two limits. -/
theorem c5_counterexample :
    maxPowerPerInterval 100 (2/5) 15 = 10 ∧
      specMaxPowerPerInterval 100 (2/5) 1 15 = 1/4 ∧
      maxPowerPerInterval 100 (2/5) 15 ≠ specMaxPowerPerInterval 100 (2/5) 1 15 := by
  norm_num [maxPowerPerInterval, specMaxPowerPerInterval, min_def]

/-- Witness for C5's amended theorem: in the example day with a
60-minute interval the planned charge amount 10 is below the ceiling
`100 * 0.4 * (60/60) = 40`. -/
theorem c5_power_ceiling_capacity_only_witness :
    (planSolar exCalc dayA
        (maxPowerPerInterval exCalc.battery_capacity exCalc.max_cycle_fraction 60) 0 =
        some { type := ActType.charge, amount := 10, price := 0, buy_price := none }) ∧
      ((10:ℝ) ≤ exCalc.battery_capacity * exCalc.max_cycle_fraction * ((60:ℝ) / 60)) := by
  have hmp : maxPowerPerInterval exCalc.battery_capacity exCalc.max_cycle_fraction 60 = 40 := by
    norm_num [maxPowerPerInterval, exCalc, initCalc]
  have he : planSolar exCalc dayA
      (maxPowerPerInterval exCalc.battery_capacity exCalc.max_cycle_fraction 60) 0 =
      some { type := ActType.charge, amount := 10, price := 0, buy_price := none } := by
    rw [hmp, planSolar, chargeThreshold_dayA]
    norm_num [dayA, planSolarStep, netEnergy, planSet, planEmpty]
  exact ⟨he, c5_power_ceiling_capacity_only exCalc dayA 60 0 _ he⟩

/-! ## Disabled modes, determinism, constructor, input frames, record schema -/

/-- C6: with both arbitrage modes disabled, `arbitrage` returns the
well-formed empty savings table immediately (lines 51-52): zero rows and
zero total savings, for any input, without failing. -/
theorem c6_disabled_yields_empty (c : Calc) (transactions : List Transaction)
    (rows : List Row) (hs : c.enable_solar_arbitrage = false)
    (hg : c.enable_grid_arbitrage = false) :
    (arbitrage c transactions rows).1 = [] ∧
      totalSavings (arbitrage c transactions rows).1 = 0 := by
  simp [arbitrage, hs, hg, totalSavings]

/-- Witness for C6: a concrete disabled calculator on a nonempty input. -/
theorem c6_disabled_yields_empty_witness :
    ((initCalc 100 false false 0.95 0.95 0.1 1.05 0.4).1.enable_solar_arbitrage = false ∧
        (initCalc 100 false false 0.95 0.95 0.1 1.05 0.4).1.enable_grid_arbitrage = false) ∧
      ((arbitrage (initCalc 100 false false 0.95 0.95 0.1 1.05 0.4).1 [] [wRow]).1 = [] ∧
        totalSavings
          (arbitrage (initCalc 100 false false 0.95 0.95 0.1 1.05 0.4).1 [] [wRow]).1 = 0) :=
  ⟨⟨rfl, rfl⟩, c6_disabled_yields_empty _ [] [wRow] rfl rfl⟩

/-- C7: `arbitrage` is a pure function of the configuration and the
rows.  The savings table is independent of the pre-existing transaction
history, and the history is only appended to, so two simulations started
from the constructor's empty history (line 28) on identical inputs and
configuration produce identical savings tables and identical
transaction ledgers. -/
theorem c7_deterministic (c : Calc) (transactions : List Transaction) (rows : List Row) :
    (arbitrage c transactions rows).1 = (arbitrage c [] rows).1 ∧
      (arbitrage c transactions rows).2 = transactions ++ (arbitrage c [] rows).2 := by
  unfold arbitrage
  split <;> simp

/-- C8 counterexample: the emitted flow records carry no solar and no
grid fraction of the battery content; the record schema of lines 227-242
has no such keys. -/
theorem c8_counterexample :
    ¬("solar_fraction" ∈ flowRecordKeys) ∧ ¬("grid_fraction" ∈ flowRecordKeys) := by
  decide

/-- C8 (amended): every flow record carries the post-transfer battery
level (key `battery_level` of the schema of lines 227-242), but the
records do not decompose the battery content into a solar and a grid
fraction — no such fields exist. -/
theorem c8_only_battery_level :
    "battery_level" ∈ flowRecordKeys ∧
      ¬("solar_fraction" ∈ flowRecordKeys) ∧ ¬("grid_fraction" ∈ flowRecordKeys) := by
  decide

/-- C9: the constructor performs no validation (lines 10-28): a negative
capacity, efficiencies outside (0,1] and a minimum state of charge above
1 are all stored exactly as given and no error is raised. -/
theorem c9_constructor_accepts_invalid_config :
    (initCalc (-5) false true 2 0 (3/2) 1.05 (2/5)).1.battery_capacity = -5 ∧
      (initCalc (-5) false true 2 0 (3/2) 1.05 (2/5)).1.charge_efficiency = 2 ∧
      (initCalc (-5) false true 2 0 (3/2) 1.05 (2/5)).1.discharge_efficiency = 0 ∧
      (initCalc (-5) false true 2 0 (3/2) 1.05 (2/5)).1.min_state_of_charge = 3/2 ∧
      (initCalc (-5) false true 2 0 (3/2) 1.05 (2/5)).2 = [] :=
  ⟨rfl, rfl, rfl, rfl, rfl⟩

/-- C10: the preparation step of `arbitrage` leaves the caller's two
DataFrame objects untouched: the locals are rebound to fresh copies
before any in-place mutation (lines 54-62). -/
theorem c10_inputs_unmutated {α : Type} (h : Heap α) (next uid pid : Nat) (tU tP : α → α)
    (hu : uid < next) (hp : pid < next) :
    (arbitragePrep h next uid pid tU tP).1 uid = h uid ∧
      (arbitragePrep h next uid pid tU tP).1 pid = h pid := by
  have hu1 : uid ≠ next := Nat.ne_of_lt hu
  have hu2 : uid ≠ next + 1 := by omega
  have hp1 : pid ≠ next := Nat.ne_of_lt hp
  have hp2 : pid ≠ next + 1 := by omega
  unfold arbitragePrep
  cases hU : h uid <;> cases hP : h pid <;>
    simp [heapSet, hu1, hu2, hp1, hp2, hU, hP]

/-- Witness for C10 at a concrete two-object heap. -/
theorem c10_inputs_unmutated_witness :
    (0:Nat) < 2 ∧ (1:Nat) < 2 ∧
      ((arbitragePrep (fun i => if i = 0 then some 5 else if i = 1 then some 7 else none)
            2 0 1 (fun v => v + 1) (fun v => v * 2)).1 0 =
          (fun i : Nat => if i = 0 then some (5:Nat) else if i = 1 then some 7 else none) 0) ∧
      ((arbitragePrep (fun i => if i = 0 then some 5 else if i = 1 then some 7 else none)
            2 0 1 (fun v => v + 1) (fun v => v * 2)).1 1 =
          (fun i : Nat => if i = 0 then some (5:Nat) else if i = 1 then some 7 else none) 1) := by
  refine ⟨by norm_num, by norm_num, ?_, ?_⟩
  · exact (c10_inputs_unmutated _ 2 0 1 _ _ (by norm_num) (by norm_num)).1
  · exact (c10_inputs_unmutated _ 2 0 1 _ _ (by norm_num) (by norm_num)).2

/-! ## Battery level bounds through the executor (C2) -/

theorem execSolar_level_bounds (c : Calc) (minLevel : ℝ) (sp : Plan) (level : ℝ) (r : Row)
    (hce : 0 < c.charge_efficiency) (hde : 0 < c.discharge_efficiency)
    (hlo : minLevel ≤ level) (hhi : level ≤ c.battery_capacity) :
    minLevel ≤ (execSolar c minLevel sp level r).level ∧
      (execSolar c minLevel sp level r).level ≤ c.battery_capacity := by
  unfold execSolar
  cases hx : (if c.enable_solar_arbitrage = true then sp r.ts else none) with
  | none =>
    by_cases h : 0 < netEnergy r <;> simp [h, hlo, hhi]
  | some action =>
    simp only []
    by_cases h1 : action.type = ActType.charge ∧ 0 < netEnergy r
    · rw [if_pos h1]
      split_ifs with h2
      · constructor
        · have : 0 < min (netEnergy r) (min action.amount
              ((c.battery_capacity - level) / c.charge_efficiency)) * c.charge_efficiency :=
            mul_pos h2 hce
          simp only
          linarith
        · have hle : min (netEnergy r) (min action.amount
              ((c.battery_capacity - level) / c.charge_efficiency)) ≤
              (c.battery_capacity - level) / c.charge_efficiency :=
            le_trans (min_le_right _ _) (min_le_right _ _)
          have h3 : min (netEnergy r) (min action.amount
              ((c.battery_capacity - level) / c.charge_efficiency)) * c.charge_efficiency ≤
              ((c.battery_capacity - level) / c.charge_efficiency) * c.charge_efficiency :=
            mul_le_mul_of_nonneg_right hle hce.le
          rw [div_mul_cancel₀ _ (ne_of_gt hce)] at h3
          simp only
          linarith
      · exact ⟨hlo, hhi⟩
    · rw [if_neg h1]
      by_cases h2 : action.type = ActType.discharge ∧ netEnergy r < 0
      · rw [if_pos h2]
        split_ifs with h3
        · constructor
          · have hle : min |netEnergy r| (min action.amount
                ((level - minLevel) * c.discharge_efficiency)) ≤
                (level - minLevel) * c.discharge_efficiency :=
              le_trans (min_le_right _ _) (min_le_right _ _)
            have h4 : min |netEnergy r| (min action.amount
                ((level - minLevel) * c.discharge_efficiency)) / c.discharge_efficiency ≤
                level - minLevel := by
              rw [div_le_iff hde]
              exact hle
            simp only
            linarith
          · have h4 : 0 < min |netEnergy r| (min action.amount
                ((level - minLevel) * c.discharge_efficiency)) / c.discharge_efficiency :=
              div_pos h3 hde
            simp only
            linarith
        · exact ⟨hlo, hhi⟩
      · rw [if_neg h2]
        exact ⟨hlo, hhi⟩

theorem execGrid_level_bounds (c : Calc) (maxPower minLevel : ℝ) (gp : Plan) (level : ℝ)
    (r : Row) (hce : 0 < c.charge_efficiency) (hde : 0 < c.discharge_efficiency)
    (hlo : minLevel ≤ level) (hhi : level ≤ c.battery_capacity) :
    minLevel ≤ (execGrid c maxPower minLevel gp level r).level ∧
      (execGrid c maxPower minLevel gp level r).level ≤ c.battery_capacity := by
  unfold execGrid
  cases hx : (if c.enable_grid_arbitrage = true then gp r.ts else none) with
  | none => exact ⟨hlo, hhi⟩
  | some action =>
    simp only []
    by_cases h1 : action.type = ActType.charge
    · rw [if_pos h1]
      split_ifs with h2
      · constructor
        · have : 0 < min action.amount
              (min ((c.battery_capacity - level) / c.charge_efficiency) maxPower) *
              c.charge_efficiency := mul_pos h2 hce
          simp only
          linarith
        · have hle : min action.amount
              (min ((c.battery_capacity - level) / c.charge_efficiency) maxPower) ≤
              (c.battery_capacity - level) / c.charge_efficiency :=
            le_trans (min_le_right _ _) (min_le_left _ _)
          have h3 : min action.amount
              (min ((c.battery_capacity - level) / c.charge_efficiency) maxPower) *
              c.charge_efficiency ≤
              ((c.battery_capacity - level) / c.charge_efficiency) * c.charge_efficiency :=
            mul_le_mul_of_nonneg_right hle hce.le
          rw [div_mul_cancel₀ _ (ne_of_gt hce)] at h3
          simp only
          linarith
      · exact ⟨hlo, hhi⟩
    · rw [if_neg h1]
      split_ifs with h3
      · constructor
        · have hle : min action.amount
              (min ((level - minLevel) * c.discharge_efficiency) maxPower) ≤
              (level - minLevel) * c.discharge_efficiency :=
            le_trans (min_le_right _ _) (min_le_left _ _)
          have h4 : min action.amount
              (min ((level - minLevel) * c.discharge_efficiency) maxPower) /
              c.discharge_efficiency ≤ level - minLevel := by
            rw [div_le_iff hde]
            exact hle
          simp only
          linarith
        · have h4 : 0 < min action.amount
              (min ((level - minLevel) * c.discharge_efficiency) maxPower) /
              c.discharge_efficiency := div_pos h3 hde
          simp only
          linarith
      · exact ⟨hlo, hhi⟩

theorem execRow_level_bounds (c : Calc) (maxPower minLevel : ℝ) (sp gp : Plan) (level : ℝ)
    (r : Row) (hce : 0 < c.charge_efficiency) (hde : 0 < c.discharge_efficiency)
    (hlo : minLevel ≤ level) (hhi : level ≤ c.battery_capacity) :
    minLevel ≤ (execRow c maxPower minLevel sp gp level r).level ∧
      (execRow c maxPower minLevel sp gp level r).level ≤ c.battery_capacity := by
  have h1 := execSolar_level_bounds c minLevel sp level r hce hde hlo hhi
  exact execGrid_level_bounds c maxPower minLevel gp
    (execSolar c minLevel sp level r).level r hce hde h1.1 h1.2

theorem execRow_record_level (c : Calc) (maxPower minLevel : ℝ) (sp gp : Plan) (level : ℝ)
    (r : Row) :
    (execRow c maxPower minLevel sp gp level r).record.battery_level =
      (execRow c maxPower minLevel sp gp level r).level := rfl

theorem execDay_level_bounds (c : Calc) (maxPower minLevel : ℝ) (sp gp : Plan)
    (rows : List Row) (level : ℝ)
    (hce : 0 < c.charge_efficiency) (hde : 0 < c.discharge_efficiency)
    (hlo : minLevel ≤ level) (hhi : level ≤ c.battery_capacity) :
    (minLevel ≤ (execDay c maxPower minLevel sp gp level rows).level ∧
        (execDay c maxPower minLevel sp gp level rows).level ≤ c.battery_capacity) ∧
      ∀ t ∈ (execDay c maxPower minLevel sp gp level rows).recs,
        minLevel ≤ t.battery_level ∧ t.battery_level ≤ c.battery_capacity := by
  induction rows generalizing level with
  | nil =>
    refine ⟨⟨hlo, hhi⟩, ?_⟩
    intro t ht
    simp only [execDay] at ht
    cases ht
  | cons r rs ih =>
    have hb := execRow_level_bounds c maxPower minLevel sp gp level r hce hde hlo hhi
    have ih2 := ih (execRow c maxPower minLevel sp gp level r).level hb.1 hb.2
    constructor
    · exact ih2.1
    · intro t ht
      simp only [execDay, List.mem_cons] at ht
      rcases ht with h | h
      · rw [h, execRow_record_level]
        exact hb
      · exact ih2.2 t h

theorem execDates_level_bounds (c : Calc) (maxPower minLevel : ℝ) (rows : List Row)
    (ds : List Nat) (level : ℝ)
    (hce : 0 < c.charge_efficiency) (hde : 0 < c.discharge_efficiency)
    (hlo : minLevel ≤ level) (hhi : level ≤ c.battery_capacity) :
    ∀ t ∈ (execDates c maxPower minLevel rows level ds).2.1,
      minLevel ≤ t.battery_level ∧ t.battery_level ≤ c.battery_capacity := by
  induction ds generalizing level with
  | nil =>
    intro t ht
    simp only [execDates] at ht
    cases ht
  | cons d ds ih =>
    intro t ht
    simp only [execDates, List.mem_append] at ht
    have hday := execDay_level_bounds c maxPower minLevel
      (if c.enable_solar_arbitrage then
        planSolar c (rows.filter (fun r => r.date == d)) maxPower else planEmpty)
      (if c.enable_grid_arbitrage then
        planGrid c (rows.filter (fun r => r.date == d)) maxPower else planEmpty)
      (rows.filter (fun r => r.date == d)) level hce hde hlo hhi
    rcases ht with h | h
    · exact hday.2 t h
    · exact ih _ hday.1.1 hday.1.2 t h

/-- The shape of `arbitrage` when at least one mode is enabled. -/
theorem arbitrage_enabled (c : Calc) (transactions : List Transaction) (rows : List Row)
    (hen : c.enable_solar_arbitrage = true ∨ c.enable_grid_arbitrage = true) :
    arbitrage c transactions rows =
      (dailyResults (execDates c
          (maxPowerPerInterval c.battery_capacity c.max_cycle_fraction
            (determineIntervalMinutes ((sortRows rows).map Row.ts)))
          (c.battery_capacity * c.min_state_of_charge) (sortRows rows)
          (c.battery_capacity * c.min_state_of_charge)
          (sortDates ((sortRows rows).map Row.date))).2.2,
        transactions ++ (execDates c
          (maxPowerPerInterval c.battery_capacity c.max_cycle_fraction
            (determineIntervalMinutes ((sortRows rows).map Row.ts)))
          (c.battery_capacity * c.min_state_of_charge) (sortRows rows)
          (c.battery_capacity * c.min_state_of_charge)
          (sortDates ((sortRows rows).map Row.date))).2.1) := by
  unfold arbitrage
  rw [if_pos hen]

/-- C2: every transaction record emitted by a run started from the
constructor's empty history has its battery level between
`min_state_of_charge * capacity` and `capacity`, for any input series
and any combination of enabled modes, given a positive capacity,
efficiencies in (0,1] and a minimum state of charge in [0,1).  The
bounds are exact in this real-number model, hence hold a fortiori within
any floating-point tolerance. -/
theorem c2_battery_level_bounds (c : Calc) (rows : List Row) (t : Transaction)
    (hcap : 0 < c.battery_capacity)
    (hce0 : 0 < c.charge_efficiency) (hce1 : c.charge_efficiency ≤ 1)
    (hde0 : 0 < c.discharge_efficiency) (hde1 : c.discharge_efficiency ≤ 1)
    (hsoc0 : 0 ≤ c.min_state_of_charge) (hsoc1 : c.min_state_of_charge < 1)
    (ht : t ∈ (arbitrage c [] rows).2) :
    c.min_state_of_charge * c.battery_capacity ≤ t.battery_level ∧
      t.battery_level ≤ c.battery_capacity := by
  by_cases hen : c.enable_solar_arbitrage = true ∨ c.enable_grid_arbitrage = true
  · rw [arbitrage_enabled c [] rows hen] at ht
    simp only [List.nil_append] at ht
    have hml : c.battery_capacity * c.min_state_of_charge ≤ c.battery_capacity := by
      nlinarith
    have hb := execDates_level_bounds c
      (maxPowerPerInterval c.battery_capacity c.max_cycle_fraction
        (determineIntervalMinutes ((sortRows rows).map Row.ts)))
      (c.battery_capacity * c.min_state_of_charge) (sortRows rows)
      (sortDates ((sortRows rows).map Row.date))
      (c.battery_capacity * c.min_state_of_charge) hce0 hde0 le_rfl hml t ht
    exact ⟨by linarith [hb.1], hb.2⟩
  · have hdis : arbitrage c [] rows = ([], []) := by
      unfold arbitrage
      rw [if_neg hen]
    rw [hdis] at ht
    cases ht

/-! ## Concrete evaluation of the single-row example run -/

theorem avgPrice_wRow : avgPrice [wRow] = 3 := by
  norm_num [avgPrice, wRow]

theorem priceStd_wRow : priceStd [wRow] = 0 := by
  have h : priceVar [wRow] = 0 := by
    simp only [priceVar, avgPrice_wRow]
    norm_num [wRow]
  rw [priceStd, h, Real.sqrt_zero]

theorem chargeThreshold_wRow : chargeThreshold [wRow] = 3 := by
  rw [chargeThreshold, avgPrice_wRow, priceStd_wRow]
  norm_num

/-- In a one-row day the price equals the mean, so no charge (and no
discharge) is planned, whatever the power ceiling. -/
theorem planSolar_wRow (mp : ℝ) : planSolar wCalc [wRow] mp = planEmpty := by
  rw [planSolar, chargeThreshold_wRow]
  norm_num [wRow, planSolarStep, netEnergy]

/-- The ledger of the single-row example run: one record, all battery
flows zero, the net surplus exported, the level at the minimum 10. -/
theorem ledger_wRow : (arbitrage wCalc [] [wRow]).2 = [wRec] := by
  have hsol : wCalc.enable_solar_arbitrage = true := rfl
  rw [arbitrage_enabled wCalc [] [wRow] (Or.inl hsol)]
  have hsort : sortRows [wRow] = [wRow] := by
    simp [sortRows]
  rw [hsort]
  have hml : wCalc.battery_capacity * wCalc.min_state_of_charge = 10 := by
    norm_num [wCalc, initCalc]
  rw [hml]
  have hdates : sortDates ([wRow].map Row.date) = [0] := by
    have hmap : [wRow].map Row.date = [0] := rfl
    rw [hmap]
    unfold sortDates
    rw [show (([0]:List Nat).eraseDups) = [0] from rfl]
    simp
  rw [hdates]
  have hfil : [wRow].filter (fun r => r.date == 0) = [wRow] := by
    simp [wRow]
  simp only [execDates, hfil, hsol, if_true, planSolar_wRow, List.nil_append]
  have hgr : wCalc.enable_grid_arbitrage = false := rfl
  simp only [hgr, if_false, Bool.false_eq_true]
  simp only [execDay, execRow, execSolar, execGrid, planEmpty, List.append_nil]
  norm_num [wRow, netEnergy, wRec, joinActions]

/-- Witness for C2 at the concrete single-row run: the emitted record's
battery level 10 lies between `0.1 * 100` and `100`. -/
theorem c2_battery_level_bounds_witness :
    ((0:ℝ) < wCalc.battery_capacity ∧
        (0:ℝ) < wCalc.charge_efficiency ∧ wCalc.charge_efficiency ≤ 1 ∧
        (0:ℝ) < wCalc.discharge_efficiency ∧ wCalc.discharge_efficiency ≤ 1 ∧
        (0:ℝ) ≤ wCalc.min_state_of_charge ∧ wCalc.min_state_of_charge < 1 ∧
        wRec ∈ (arbitrage wCalc [] [wRow]).2) ∧
      (wCalc.min_state_of_charge * wCalc.battery_capacity ≤ wRec.battery_level ∧
        wRec.battery_level ≤ wCalc.battery_capacity) := by
  have h1 : (0:ℝ) < wCalc.battery_capacity := by norm_num [wCalc, initCalc]
  have h2 : (0:ℝ) < wCalc.charge_efficiency := by norm_num [wCalc, initCalc]
  have h3 : wCalc.charge_efficiency ≤ 1 := by norm_num [wCalc, initCalc]
  have h4 : (0:ℝ) < wCalc.discharge_efficiency := by norm_num [wCalc, initCalc]
  have h5 : wCalc.discharge_efficiency ≤ 1 := by norm_num [wCalc, initCalc]
  have h6 : (0:ℝ) ≤ wCalc.min_state_of_charge := by norm_num [wCalc, initCalc]
  have h7 : wCalc.min_state_of_charge < 1 := by norm_num [wCalc, initCalc]
  have hm : wRec ∈ (arbitrage wCalc [] [wRow]).2 := by
    rw [ledger_wRow]
    exact List.mem_cons_self _ _
  exact ⟨⟨h1, h2, h3, h4, h5, h6, h7, hm⟩,
    c2_battery_level_bounds wCalc [wRow] wRec h1 h2 h3 h4 h5 h6 h7 hm⟩

/-! ## Energy conservation at every executed timestamp (C3) -/

/-- A solar plan entry is only ever created for a row whose net energy
has the matching sign (lines 325 and 332). -/
theorem planSolar_consistent (c : Calc) (day : List Row) (maxPower : ℝ)
    (hn : (day.map Row.ts).Nodup) (r : Row) (hm : r ∈ day) (e : PlanEntry)
    (he : planSolar c day maxPower r.ts = some e) :
    (e.type = ActType.charge → 0 < netEnergy r) ∧
      (e.type = ActType.discharge → netEnergy r < 0) := by
  rw [planSolar_lookup c day maxPower r hn hm] at he
  by_cases h1 : 0 < netEnergy r ∧ r.price < chargeThreshold day
  · rw [if_pos h1] at he
    injection he with he2
    constructor
    · intro _
      exact h1.1
    · intro hd
      rw [← he2] at hd
      simp at hd
  · rw [if_neg h1] at he
    by_cases h2 : netEnergy r < 0 ∧ dischargeThreshold c day < r.price
    · rw [if_pos h2] at he
      injection he with he2
      constructor
      · intro hc
        rw [← he2] at hc
        simp at hc
      · intro _
        exact h2.1
    · rw [if_neg h2] at he
      cases he

theorem execSolar_conservation (c : Calc) (minLevel : ℝ) (sp : Plan) (level : ℝ) (r : Row)
    (hcons : ∀ e, sp r.ts = some e →
      (e.type = ActType.charge → 0 < netEnergy r) ∧
        (e.type = ActType.discharge → netEnergy r < 0)) :
    (execSolar c minLevel sp level r).s2b + (execSolar c minLevel sp level r).s2g =
        max 0 (netEnergy r) ∧
      (execSolar c minLevel sp level r).b2h + (execSolar c minLevel sp level r).g2h =
        max 0 (-netEnergy r) := by
  unfold execSolar
  cases hx : (if c.enable_solar_arbitrage = true then sp r.ts else none) with
  | none =>
    simp only []
    by_cases h : 0 < netEnergy r
    · rw [if_pos h]
      constructor
      · rw [max_eq_right h.le]
        ring
      · rw [max_eq_left (by linarith : -netEnergy r ≤ 0)]
        ring
    · rw [if_neg h]
      push_neg at h
      constructor
      · rw [max_eq_left h]
        ring
      · rw [abs_of_nonpos h, max_eq_right (by linarith : (0:ℝ) ≤ -netEnergy r)]
        ring
  | some action =>
    simp only []
    have hact : sp r.ts = some action := by
      by_cases hb : c.enable_solar_arbitrage = true
      · rw [if_pos hb] at hx
        exact hx
      · rw [if_neg hb] at hx
        cases hx
    by_cases h1 : action.type = ActType.charge ∧ 0 < netEnergy r
    · rw [if_pos h1]
      split_ifs with h2
      · constructor
        · rw [max_eq_right h1.2.le]
          ring
        · rw [max_eq_left (by linarith [h1.2] : -netEnergy r ≤ 0)]
          ring
      · constructor
        · rw [max_eq_right h1.2.le]
          ring
        · rw [max_eq_left (by linarith [h1.2] : -netEnergy r ≤ 0)]
          ring
    · rw [if_neg h1]
      by_cases h2 : action.type = ActType.discharge ∧ netEnergy r < 0
      · rw [if_pos h2]
        split_ifs with h3
        · constructor
          · rw [max_eq_left h2.2.le]
            ring
          · rw [abs_of_neg h2.2, max_eq_right (by linarith [h2.2] : (0:ℝ) ≤ -netEnergy r)]
            ring
        · constructor
          · rw [max_eq_left h2.2.le]
            ring
          · rw [abs_of_neg h2.2, max_eq_right (by linarith [h2.2] : (0:ℝ) ≤ -netEnergy r)]
            ring
      · exfalso
        have hc := hcons action hact
        cases hat : action.type with
        | charge => exact h1 ⟨hat, hc.1 hat⟩
        | discharge => exact h2 ⟨hat, hc.2 hat⟩

theorem execRow_conservation (c : Calc) (maxPower minLevel : ℝ) (sp gp : Plan) (level : ℝ)
    (r : Row)
    (hcons : ∀ e, sp r.ts = some e →
      (e.type = ActType.charge → 0 < netEnergy r) ∧
        (e.type = ActType.discharge → netEnergy r < 0)) :
    (execRow c maxPower minLevel sp gp level r).record.solar_to_battery +
        (execRow c maxPower minLevel sp gp level r).record.solar_to_grid =
        max 0 ((execRow c maxPower minLevel sp gp level r).record.solar_return -
          (execRow c maxPower minLevel sp gp level r).record.house_consumption) ∧
      (execRow c maxPower minLevel sp gp level r).record.battery_to_house +
          (execRow c maxPower minLevel sp gp level r).record.grid_to_house =
        max 0 ((execRow c maxPower minLevel sp gp level r).record.house_consumption -
          (execRow c maxPower minLevel sp gp level r).record.solar_return) := by
  have h := execSolar_conservation c minLevel sp level r hcons
  constructor
  · show (execSolar c minLevel sp level r).s2b + (execSolar c minLevel sp level r).s2g =
      max 0 (r.ret - r.supply)
    exact h.1
  · show (execSolar c minLevel sp level r).b2h + (execSolar c minLevel sp level r).g2h =
      max 0 (r.supply - r.ret)
    have h2 := h.2
    rw [show -netEnergy r = r.supply - r.ret by rw [netEnergy]; ring] at h2
    exact h2

theorem execDay_conservation (c : Calc) (maxPower minLevel : ℝ) (sp gp : Plan)
    (rows : List Row) (level : ℝ)
    (hcons : ∀ r ∈ rows, ∀ e, sp r.ts = some e →
      (e.type = ActType.charge → 0 < netEnergy r) ∧
        (e.type = ActType.discharge → netEnergy r < 0)) :
    ∀ t ∈ (execDay c maxPower minLevel sp gp level rows).recs,
      t.solar_to_battery + t.solar_to_grid = max 0 (t.solar_return - t.house_consumption) ∧
        t.battery_to_house + t.grid_to_house =
          max 0 (t.house_consumption - t.solar_return) := by
  induction rows generalizing level with
  | nil =>
    intro t ht
    simp only [execDay] at ht
    cases ht
  | cons r rs ih =>
    intro t ht
    simp only [execDay, List.mem_cons] at ht
    rcases ht with h | h
    · subst h
      exact execRow_conservation c maxPower minLevel sp gp level r
        (hcons r (List.mem_cons_self _ _))
    · exact ih _ (fun r2 hr2 => hcons r2 (List.mem_cons_of_mem _ hr2)) t h

theorem execDates_conservation (c : Calc) (maxPower minLevel : ℝ) (rows : List Row)
    (hn : (rows.map Row.ts).Nodup) (ds : List Nat) (level : ℝ) :
    ∀ t ∈ (execDates c maxPower minLevel rows level ds).2.1,
      t.solar_to_battery + t.solar_to_grid = max 0 (t.solar_return - t.house_consumption) ∧
        t.battery_to_house + t.grid_to_house =
          max 0 (t.house_consumption - t.solar_return) := by
  induction ds generalizing level with
  | nil =>
    intro t ht
    simp only [execDates] at ht
    cases ht
  | cons d ds ih =>
    intro t ht
    simp only [execDates, List.mem_append] at ht
    rcases ht with h | h
    · refine execDay_conservation c maxPower minLevel _ _
        (rows.filter (fun r => r.date == d)) level ?_ t h
      intro r hr e he
      by_cases hb : c.enable_solar_arbitrage = true
      · rw [if_pos hb] at he
        have hnd : ((rows.filter (fun r => r.date == d)).map Row.ts).Nodup :=
          ((List.filter_sublist rows).map Row.ts).nodup hn
        exact planSolar_consistent c _ _ hnd r hr e he
      · rw [if_neg hb] at he
        simp [planEmpty] at he
    · exact ih _ t h

/-- C3: every emitted record conserves energy at the house/solar
interface: `solar_to_battery + solar_to_grid = max 0 (return - supply)`
and `battery_to_house + grid_to_house = max 0 (supply - return)`, for
any configuration and any input whose timestamps are unique (which the
pandas pivot of lines 64-72 guarantees).  The equalities are exact in
this real-number model. -/
theorem c3_conservation (c : Calc) (rows : List Row) (t : Transaction)
    (hn : (rows.map Row.ts).Nodup) (ht : t ∈ (arbitrage c [] rows).2) :
    t.solar_to_battery + t.solar_to_grid = max 0 (t.solar_return - t.house_consumption) ∧
      t.battery_to_house + t.grid_to_house =
        max 0 (t.house_consumption - t.solar_return) := by
  by_cases hen : c.enable_solar_arbitrage = true ∨ c.enable_grid_arbitrage = true
  · rw [arbitrage_enabled c [] rows hen] at ht
    simp only [List.nil_append] at ht
    have hns : ((sortRows rows).map Row.ts).Nodup := by
      have hperm : (sortRows rows).Perm rows := List.mergeSort_perm rows _
      exact ((hperm.map Row.ts).symm).nodup hn
    exact execDates_conservation c _ _ (sortRows rows) hns _ _ t ht
  · have hdis : arbitrage c [] rows = ([], []) := by
      unfold arbitrage
      rw [if_neg hen]
    rw [hdis] at ht
    cases ht

/-- Witness for C3 at the concrete single-row run: the record exports
the full surplus (`0 + 5 = max 0 (5 - 0)`) and draws nothing. -/
theorem c3_conservation_witness :
    (([wRow].map Row.ts).Nodup ∧ wRec ∈ (arbitrage wCalc [] [wRow]).2) ∧
      (wRec.solar_to_battery + wRec.solar_to_grid =
          max 0 (wRec.solar_return - wRec.house_consumption) ∧
        wRec.battery_to_house + wRec.grid_to_house =
          max 0 (wRec.house_consumption - wRec.solar_return)) := by
  have hn : ([wRow].map Row.ts).Nodup := by simp
  have hm : wRec ∈ (arbitrage wCalc [] [wRow]).2 := by
    rw [ledger_wRow]
    exact List.mem_cons_self _ _
  exact ⟨⟨hn, hm⟩, c3_conservation wCalc [wRow] wRec hn hm⟩

end BatteryModule
